import Mathlib

set_option maxRecDepth 100000

/-!
Verification of the Recipe-Finder repository (Next.js dish-identification app).

The development shallowly embeds the two sides of the application:

* the server route handler (src/app/api/identify/route.ts): the JSON-first
  response normalization pipeline (brace extraction, JSON.parse model, shape
  check, heuristic section scrape, placeholder) and the request-level
  branches (missing image field, missing API key);
* the client page controller (src/app/page.tsx): the identifyDish request
  lifecycle as an event trace semantics, and the camera-session track
  lifecycle; plus the standalone CameraCapture component's effect cleanup.

Strings are processed as their character lists so that every definition is
executable and concrete runs reduce by rfl or decide.  The external
collaborators (JSON.parse, the AI model, the browser media API) are modelled
explicitly where the code's observable behaviour depends on them.
-/

namespace RecipeFinder

/-! ### JSON values

A model of the JavaScript values that flow through the handler: the results
of JSON.parse and the bodies passed to NextResponse.json.  Objects are
association lists in property order. -/

inductive Json where
  | null : Json
  | bool : Bool → Json
  | num : Int → Json
  | str : String → Json
  | arr : List Json → Json
  | obj : List (String × Json) → Json

/-- First-match association lookup, modelling JS property access on objects
built from distinct keys (the parser below keeps keys distinct). -/
def lookupField {α : Type} : List (String × α) → String → Option α
  | [], _ => none
  | (k, v) :: rest, key => if k = key then some v else lookupField rest key

/-- Property update in place, modelling both duplicate-key collapsing in
JSON.parse (the later value wins, the property keeps its position) and the
object-spread override in the route handler. -/
def setField {α : Type} : List (String × α) → String → α → List (String × α)
  | [], k, v => [(k, v)]
  | (k', v') :: rest, k, v =>
    if k' = k then (k, v) :: rest else (k', v') :: setField rest k v

/-- Property read on a JSON value: absent on every non-object. -/
def Json.lookup : Json → String → Option Json
  | .obj fields, key => lookupField fields key
  | _, _ => none

/-! ### Character helpers shared by the parsing code -/

/-- The whitespace class used by the JS regexes and String.trim in the route
handler (ASCII part; the claims never involve Unicode spaces). -/
def jsWhitespace (c : Char) : Bool :=
  c == ' ' || c == '\t' || c == '\n' || c == '\r' ||
  c == Char.ofNat 11 || c == Char.ofNat 12

/-- Whitespace that JSON.parse skips between tokens. -/
def jsonWs (c : Char) : Bool :=
  c == ' ' || c == '\t' || c == '\n' || c == '\r'

/-- String.prototype.trim on a character list. -/
def trimChars (cs : List Char) : List Char :=
  ((cs.dropWhile jsWhitespace).reverse.dropWhile jsWhitespace).reverse

/-- split('\n') on a character list; like the JS method it yields one (possibly
empty) piece per newline-separated segment. -/
def splitLines : List Char → List (List Char)
  | [] => [[]]
  | c :: rest =>
    if c = '\n' then [] :: splitLines rest
    else
      match splitLines rest with
      | [] => [[c]]
      | l :: ls => (c :: l) :: ls

/-! ### A model of JSON.parse

The route handler calls the JS builtin JSON.parse on the brace-delimited
substring of the model reply.  The builtin is external to the repository, so
it is modelled here: the full value grammar with objects, arrays, strings
(with escapes), integer numbers, booleans and null.  Number fractions and
exponents are outside the integer fragment modelled here; none of the
verified behaviours depend on them.  Duplicate object keys collapse to the
last occurrence exactly as in JS. -/

def hexDigitVal (c : Char) : Option Nat :=
  if c.isDigit then some (c.toNat - '0'.toNat)
  else if 'a' ≤ c ∧ c ≤ 'f' then some (c.toNat - 'a'.toNat + 10)
  else if 'A' ≤ c ∧ c ≤ 'F' then some (c.toNat - 'A'.toNat + 10)
  else none

def escapeChar (c : Char) : Option Char :=
  if c = '"' then some '"'
  else if c = '\\' then some '\\'
  else if c = '/' then some '/'
  else if c = 'b' then some (Char.ofNat 8)
  else if c = 'f' then some (Char.ofNat 12)
  else if c = 'n' then some '\n'
  else if c = 'r' then some '\r'
  else if c = 't' then some '\t'
  else none

/-- Body of a JSON string literal after the opening quote: the decoded
characters and the input remaining after the closing quote. -/
def parseStringBody : List Char → Option (List Char × List Char)
  | [] => none
  | '"' :: rest => some ([], rest)
  | '\\' :: 'u' :: h1 :: h2 :: h3 :: h4 :: rest =>
    match hexDigitVal h1, hexDigitVal h2, hexDigitVal h3, hexDigitVal h4 with
    | some a, some b, some c, some d =>
      match parseStringBody rest with
      | some (s, rem) => some (Char.ofNat (((a * 16 + b) * 16 + c) * 16 + d) :: s, rem)
      | none => none
    | _, _, _, _ => none
  | '\\' :: e :: rest =>
    match escapeChar e with
    | some c =>
      match parseStringBody rest with
      | some (s, rem) => some (c :: s, rem)
      | none => none
    | none => none
  | c :: rest =>
    match parseStringBody rest with
    | some (s, rem) => some (c :: s, rem)
    | none => none

def digitsToNat (ds : List Char) : Nat :=
  ds.foldl (fun acc c => acc * 10 + (c.toNat - '0'.toNat)) 0

/-- One-or-more leading decimal digits and the rest of the input. -/
def parseDigits (cs : List Char) : Option (Nat × List Char) :=
  match cs.takeWhile Char.isDigit with
  | [] => none
  | ds => some (digitsToNat ds, cs.drop ds.length)

mutual

/-- One JSON value (leading whitespace allowed) and the remaining input.
Recursion is on a fuel counter; parseJson below supplies enough fuel for any
input of the given length. -/
def parseValue : Nat → List Char → Option (Json × List Char)
  | 0, _ => none
  | fuel + 1, cs =>
    match cs.dropWhile jsonWs with
    | '"' :: rest =>
      match parseStringBody rest with
      | some (s, rem) => some (.str ⟨s⟩, rem)
      | none => none
    | '{' :: rest =>
      match rest.dropWhile jsonWs with
      | '}' :: rem => some (.obj [], rem)
      | _ => parseMembers fuel rest []
    | '[' :: rest =>
      match rest.dropWhile jsonWs with
      | ']' :: rem => some (.arr [], rem)
      | _ => parseItems fuel rest []
    | 't' :: 'r' :: 'u' :: 'e' :: rest => some (.bool true, rest)
    | 'f' :: 'a' :: 'l' :: 's' :: 'e' :: rest => some (.bool false, rest)
    | 'n' :: 'u' :: 'l' :: 'l' :: rest => some (.null, rest)
    | '-' :: rest =>
      match parseDigits rest with
      | some (n, rem) => some (.num (-(n : Int)), rem)
      | none => none
    | c :: rest =>
      if c.isDigit then
        match parseDigits (c :: rest) with
        | some (n, rem) => some (.num (n : Int), rem)
        | none => none
      else none
    | [] => none

/-- One-or-more comma-separated object members up to the closing brace,
accumulated with last-wins duplicate handling. -/
def parseMembers : Nat → List Char → List (String × Json) → Option (Json × List Char)
  | 0, _, _ => none
  | fuel + 1, cs, acc =>
    match cs.dropWhile jsonWs with
    | '"' :: rest =>
      match parseStringBody rest with
      | some (key, rem1) =>
        match rem1.dropWhile jsonWs with
        | ':' :: rem2 =>
          match parseValue fuel rem2 with
          | some (v, rem3) =>
            match rem3.dropWhile jsonWs with
            | ',' :: rem4 => parseMembers fuel rem4 (setField acc ⟨key⟩ v)
            | '}' :: rem4 => some (.obj (setField acc ⟨key⟩ v), rem4)
            | _ => none
          | none => none
        | _ => none
      | none => none
    | _ => none

/-- One-or-more comma-separated array elements up to the closing bracket. -/
def parseItems : Nat → List Char → List Json → Option (Json × List Char)
  | 0, _, _ => none
  | fuel + 1, cs, acc =>
    match parseValue fuel cs with
    | some (v, rem) =>
      match rem.dropWhile jsonWs with
      | ',' :: rem2 => parseItems fuel rem2 (acc ++ [v])
      | ']' :: rem2 => some (.arr (acc ++ [v]), rem2)
      | _ => none
    | none => none

end

/-- JSON.parse model on a whole string: one value and nothing but trailing
whitespace after it, otherwise failure (the JS builtin throws). -/
def parseJson (s : String) : Option Json :=
  match parseValue (2 * s.data.length + 2) s.data with
  | some (j, rem) => if rem.dropWhile jsonWs = [] then some j else none
  | none => none

/-! ### The heuristic text scrape (route.ts, extractSection and
createStructuredResponse) -/

/-- Index of the first occurrence of pat as a contiguous substring of hay,
modelling String.prototype.indexOf (none for JS -1). -/
def indexOfSub : List Char → List Char → Option Nat
  | hay, pat =>
    if pat.isPrefixOf hay then some 0
    else
      match hay with
      | [] => none
      | _ :: rest => (indexOfSub rest pat).map (fun i => i + 1)

/-- Test of the JS regex digits-then-dot anchored at the start of the line. -/
def startsWithNumberDot (cs : List Char) : Bool :=
  match cs.takeWhile Char.isDigit, cs.drop (cs.takeWhile Char.isDigit).length with
  | _ :: _, '.' :: _ => true
  | _, _ => false

/-- The filter in extractSection: a nonempty trimmed line beginning with a
bullet marker or a numbered-list marker. -/
def isBulletLine (cs : List Char) : Bool :=
  match cs with
  | [] => false
  | '-' :: _ => true
  | '•' :: _ => true
  | _ => startsWithNumberDot cs

/-- replace of the first anchored marker match: one bullet character, or the
leading digits and the following dot. -/
def stripMarker (cs : List Char) : List Char :=
  match cs with
  | '-' :: rest => rest
  | '•' :: rest => rest
  | _ =>
    if startsWithNumberDot cs then cs.drop ((cs.takeWhile Char.isDigit).length + 1)
    else cs

/-- extractSection from route.ts: find the first occurrence of the section
marker, split everything after it into lines, trim each, keep every
marker-bearing line (a JS Array.filter, so the collection runs to the end of
the text), and strip the marker from each kept line. -/
def extractSection (text : String) (sectionMarker : String) : List String :=
  match indexOfSub text.data sectionMarker.data with
  | none => []
  | some sectionStart =>
    let nextSection := text.data.drop (sectionStart + sectionMarker.data.length)
    (((splitLines nextSection).map trimChars).filter isBulletLine).map
      (fun line => (⟨trimChars (stripMarker line)⟩ : String))

/-- Greedy-with-backtracking tail of the label regexes: the whitespace run may
give characters back until the one-or-more non-newline capture can start.
Tries width w first, then smaller widths. -/
def captureFrom (cs : List Char) : Nat → Option (List Char)
  | 0 =>
    match cs with
    | c :: _ => if c = '\n' then none else some (cs.takeWhile (fun d => d != '\n'))
    | [] => none
  | w + 1 =>
    match cs.drop (w + 1) with
    | c :: _ =>
      if c = '\n' then captureFrom cs w
      else some ((cs.drop (w + 1)).takeWhile (fun d => d != '\n'))
    | [] => captureFrom cs w

/-- After the optional colon: the whitespace-star then one-or-more non-newline
characters, as the JS regex engine matches them. -/
def captureAfterLabel (cs : List Char) : Option (List Char) :=
  captureFrom cs (cs.takeWhile jsWhitespace).length

/-- One attempt of the label regex at the current position: the label matched
case-insensitively, then the optional colon (greedy, with the colon-free
alternative tried on failure), then the captured value. -/
def matchLabelAt (cs label : List Char) : Option (List Char) :=
  if (cs.take label.length).map Char.toLower = label then
    let afterLabel := cs.drop label.length
    match afterLabel with
    | ':' :: rest =>
      match captureAfterLabel rest with
      | some cap => some cap
      | none => captureAfterLabel afterLabel
    | _ => captureAfterLabel afterLabel
  else none

/-- The full regex scan: first position (left to right) at which the label
pattern matches, as in String.prototype.match. -/
def matchLabel : List Char → List Char → Option (List Char)
  | [], _ => none
  | cs@(_ :: rest), label =>
    match matchLabelAt cs label with
    | some cap => some cap
    | none => matchLabel rest label

/-- Captured label value, trimmed, with the JS falsy-default applied when the
regex fails or the trimmed capture is empty. -/
def labelValue (text label dflt : String) : String :=
  match matchLabel text.data label.data with
  | some cap =>
    match trimChars cap with
    | [] => dflt
    | t => (⟨t⟩ : String)
  | none => dflt

/-- The normalized record returned by the route handler (types.ts DishResult,
with region always filled by the handler before responding). -/
structure DishResult where
  name : String
  region : String
  ingredients : List String
  instructions : List String
  funFacts : List String
deriving DecidableEq, Repr

/-- createStructuredResponse from route.ts: name and region from the
case-insensitive label regexes, the three lists from extractSection.  (The
source also computes an unused local of the trimmed nonempty lines; it has no
effect and is omitted.) -/
def createStructuredResponse (text : String) : DishResult :=
  { name := labelValue text "name" "Unknown Dish"
  , region := labelValue text "region" "Origin not specified"
  , ingredients := extractSection text "Ingredients"
  , instructions := extractSection text "Instructions"
  , funFacts := extractSection text "Fun Facts" }

/-! ### The response pipeline of the POST handler (route.ts) -/

/-- The regex match over the model reply that looks for a brace-delimited
substring: it succeeds exactly when the first opening brace lies before the
last closing brace, and then spans greedily between them. -/
def braceMatch (text : String) : Option String :=
  match text.data.findIdx? (fun c => c == '{') with
  | none => none
  | some i =>
    match text.data.reverse.findIdx? (fun c => c == '}') with
    | none => none
    | some k =>
      let j := text.data.length - 1 - k
      if i < j then some (⟨(text.data.drop i).take (j - i + 1)⟩ : String) else none

def isStr : Option Json → Bool
  | some (.str _) => true
  | _ => false

def isArr : Option Json → Bool
  | some (.arr _) => true
  | _ => false

def isStrOrAbsent : Option Json → Bool
  | some (.str _) => true
  | none => true
  | _ => false

/-- isValidDishResult from route.ts.  In JS the typeof-object/non-null guard
also lets arrays through, but an array's name property is undefined and the
string check then fails, so only objects can pass overall; the non-object
cases are therefore folded to false. -/
def isValidDishResult (data : Json) : Bool :=
  match data with
  | .obj _ =>
    isStr (data.lookup "name") &&
    isStrOrAbsent (data.lookup "region") &&
    isArr (data.lookup "ingredients") &&
    isArr (data.lookup "instructions") &&
    isArr (data.lookup "funFacts")
  | _ => false

/-- The JS expression region-or-default: the falsy values of the region
property (absent, or the empty string) yield the default. -/
def regionOrDefault (j : Json) : String :=
  match j.lookup "region" with
  | some (.str r) => if r = "" then "Origin not specified" else r
  | _ => "Origin not specified"

/-- The object-spread response of the strict-JSON path: every property of the
parsed object kept in place, region overridden (or appended) with the
defaulted value. -/
def withDefaultRegion (j : Json) : Json :=
  match j with
  | .obj fields => .obj (setField fields "region" (.str (regionOrDefault j)))
  | _ => j

/-- The fixed basic response of the last-resort path (route.ts lines 142-148). -/
def placeholderResult : DishResult :=
  { name := "Unable to identify dish"
  , region := "Origin not specified"
  , ingredients := []
  , instructions := ["No instructions available"]
  , funFacts := ["No information available"] }

/-- Serialization of a DishResult by NextResponse.json, properties in the
declaration order of the source object literals. -/
def DishResult.toJson (d : DishResult) : Json :=
  .obj [ ("name", .str d.name)
       , ("region", .str d.region)
       , ("ingredients", .arr (d.ingredients.map .str))
       , ("instructions", .arr (d.instructions.map .str))
       , ("funFacts", .arr (d.funFacts.map .str)) ]

/-- The second and third attempts of the handler: the structured scrape when
it carries any content (a non-default name, or a nonempty ingredients or
instructions list), the placeholder otherwise.  Both respond 200. -/
def fallbackResponse (responseText : String) : Nat × Json :=
  if (createStructuredResponse responseText).name ≠ "Unknown Dish"
      ∨ 0 < (createStructuredResponse responseText).ingredients.length
      ∨ 0 < (createStructuredResponse responseText).instructions.length
  then (200, (createStructuredResponse responseText).toJson)
  else (200, placeholderResult.toJson)

/-- The whole normalization of the model reply (route.ts lines 117-153): the
brace-extracted JSON when it parses and passes the shape check; otherwise the
fallback; a brace match whose JSON.parse throws escapes to the catch clause,
whose message test maps it to the 422 response. -/
def processText (responseText : String) : Nat × Json :=
  match braceMatch responseText with
  | some jsonStr =>
    match parseJson jsonStr with
    | some parsedResponse =>
      if isValidDishResult parsedResponse
      then (200, withDefaultRegion parsedResponse)
      else fallbackResponse responseText
    | none => (422, Json.obj [("error", Json.str "Failed to process AI response")])
  | none => fallbackResponse responseText

/-! ### The request-level branches of POST -/

/-- A value of the multipart form: a binary blob (a File is a Blob) or a plain
string entry. -/
inductive FormValue where
  | file : List Nat → FormValue
  | str : String → FormValue
deriving DecidableEq

/-- Outcome of one handler invocation; modelCalled records whether control
reached the generateContent call. -/
structure HandlerResult where
  status : Nat
  body : Json
  modelCalled : Bool

/-- The POST handler over its request-visible inputs: the multipart form, the
API-key environment variable, and the reply text the external model would
return.  Mirrors route.ts: the image-field guard (get returns the first
entry; null or a string entry fails the Blob test), then the falsy API-key
guard whose thrown message is mapped by the catch clause to the 503 response,
then the model call and the reply normalization. -/
def POST (form : List (String × FormValue)) (apiKey : Option String)
    (modelReply : String) : HandlerResult :=
  match lookupField form "image" with
  | none => ⟨400, Json.obj [("error", Json.str "No valid image provided")], false⟩
  | some (.str _) => ⟨400, Json.obj [("error", Json.str "No valid image provided")], false⟩
  | some (.file _) =>
    match apiKey with
    | none => ⟨503, Json.obj [("error", Json.str "Service configuration error")], false⟩
    | some k =>
      if k = "" then ⟨503, Json.obj [("error", Json.str "Service configuration error")], false⟩
      else ⟨(processText modelReply).1, (processText modelReply).2, true⟩

/-- The code-level failure condition of the strict-JSON attempt that falls
through to the scrape (as opposed to a parse exception, which the handler
turns into the 422 response): no brace-delimited substring, or one whose
parsed value fails the shape check. -/
def strictPathRejects (text : String) : Bool :=
  match braceMatch text with
  | none => true
  | some s =>
    match parseJson s with
    | some j => ! isValidDishResult j
    | none => false

/-! ### The client controller (src/app/page.tsx, identifyDish)

The page keeps loading, result and error in React state.  identifyDish runs:
setLoading(true) and setError(null) synchronously, then awaits the fetch and
the body decode, then either setResult(data) or, in the catch clause,
setError(message), and setLoading(false) in the finally clause.  Each
invocation therefore contributes two atomic bursts of state updates: a begin
burst before its first await, and a resolve burst after its response settles.
A concurrent execution of several invocations is an interleaving of their
bursts; the source installs no AbortController (or any other cancellation),
so every invocation always runs both bursts. -/

structure ControllerState where
  loading : Bool
  result : Option DishResult
  error : Option String
deriving DecidableEq, Repr

/-- The initial useState values of the page: not loading, no result, no error. -/
def initController : ControllerState := ⟨false, none, none⟩

inductive FetchOutcome where
  | success : DishResult → FetchOutcome
  | failure : FetchOutcome
deriving DecidableEq, Repr

/-- A burst of state updates from one identifyDish invocation, tagged with the
invocation it belongs to. -/
inductive CEvent where
  | beginRequest : Nat → CEvent
  | resolve : Nat → FetchOutcome → CEvent
deriving DecidableEq, Repr

def CEvent.invocation : CEvent → Nat
  | .beginRequest i => i
  | .resolve i _ => i

/-- State effect of one burst, exactly as the source orders the setters:
begin sets loading and clears the error; a successful resolve stores the
result and clears loading; a failed resolve stores the fixed message and
clears loading.  No burst of the source ever clears the stored result. -/
def applyEvent (s : ControllerState) : CEvent → ControllerState
  | .beginRequest _ => { s with loading := true, error := none }
  | .resolve _ (.success d) => { s with result := some d, loading := false }
  | .resolve _ .failure =>
    { s with error := some "Failed to identify dish. Please try again.", loading := false }

def runEvents (s : ControllerState) (es : List CEvent) : ControllerState :=
  es.foldl applyEvent s

/-- The bursts a trace contains for one invocation, in order: used to state
that a trace is a genuine interleaving of the given invocations. -/
def burstsOf (trace : List CEvent) (i : Nat) : List CEvent :=
  trace.filter (fun e => e.invocation == i)

def dishFirst : DishResult :=
  { name := "First", region := "A", ingredients := [], instructions := [], funFacts := [] }

def dishSecond : DishResult :=
  { name := "Second", region := "B", ingredients := [], instructions := [], funFacts := [] }

/-- A realizable schedule: invocation 1 begins, invocation 2 begins while 1 is
still in flight, invocation 2's response settles first, and invocation 1's
response settles last. -/
def raceTrace : List CEvent :=
  [ .beginRequest 1
  , .beginRequest 2
  , .resolve 2 (.success dishSecond)
  , .resolve 1 (.success dishFirst) ]

/-! ### The camera session (src/app/page.tsx and the CameraCapture component)

The page-level camera of page.tsx: startCamera acquires the device stream
and attaches it to the video element only when the element is already
mounted (the source guards the attach behind a ref check on lines 35-37).
The video element, however, is rendered only while showCamera is true (line
161), and the button that invokes startCamera is rendered only while
showCamera is false (line 159), so at the attach statement the ref is null
and the acquired stream stays unattached in every ordinary execution;
setShowCamera(true) mounts the element only afterwards.  capturePhoto and
the cancel button stop the tracks of the stream attached to the video
element (none when unattached), and an unattached video also has a
zero-sized frame, so canvas.toBlob yields null and the capture block never
runs.  The page mounts no effect cleanup, so unmounting runs no
track-stopping code either.  streamTracks counts the live tracks of the
acquired device stream (0 = none or all stopped). -/

structure CameraSession where
  streamTracks : Nat
  attached : Bool
  showCamera : Bool
  videoMounted : Bool
deriving DecidableEq, Repr

def initSession : CameraSession := ⟨0, false, false, false⟩

/-- startCamera success path (page.tsx lines 30-43): the stream is acquired;
the srcObject attach runs only if the video element is mounted at that
moment; then setShowCamera(true) mounts the element. -/
def startCameraOk (s : CameraSession) (tracks : Nat) : CameraSession :=
  { s with streamTracks := tracks
         , attached := s.videoMounted
         , showCamera := true
         , videoMounted := true }

/-- capturePhoto (page.tsx lines 45-66): with an attached stream the frame
is drawn, toBlob produces a blob, and the callback stops every track of the
attached stream and closes the camera UI; with no attached stream the frame
is empty, toBlob yields null, and the callback body never runs. -/
def capturePhoto (s : CameraSession) : CameraSession :=
  if s.attached
  then { s with streamTracks := 0, showCamera := false, videoMounted := false }
  else s

/-- The cancel button of the camera view (page.tsx lines 176-185): stops the
tracks of the stream attached to the video element - none when unattached -
and closes the camera UI. -/
def cancelCamera (s : CameraSession) : CameraSession :=
  { s with streamTracks := if s.attached then 0 else s.streamTracks
         , showCamera := false
         , videoMounted := false }

/-- Unmounting the page component: page.tsx registers no effect cleanup for
the camera, so no track is stopped. -/
def unmountHome (s : CameraSession) : CameraSession := s

/-- The standalone CameraCapture component (modelled from its source file):
its effect records the acquired stream in a local variable and its cleanup
stops every track of the recorded stream. -/
structure CCSession where
  deviceTracks : Nat
  streamRecorded : Bool
deriving DecidableEq, Repr

def ccAcquire (_s : CCSession) (tracks : Nat) : CCSession := ⟨tracks, true⟩

def ccCleanup (s : CCSession) : CCSession :=
  if s.streamRecorded then { s with deviceTracks := 0 } else s

/-! ### Concrete inputs used by the claims -/

/-- The heuristic-path example of the specification. -/
def pizzaText : String :=
  "Name: Pizza\nRegion: Italy\nIngredients\n- Flour\n- Cheese\nInstructions\n1. Mix\n2. Bake"

/-- The strict-path example of the specification, embedded in prose. -/
def tacosText : String :=
  "Sure! Here is the dish info: \x7b\"name\":\"Tacos\",\"region\":\"Mexico\",\"ingredients\":[\"corn\"],\"instructions\":[\"cook\"],\"funFacts\":[\"old\"]\x7d Enjoy!"

/-- The brace-delimited substring of tacosText. -/
def tacosJsonStr : String :=
  "\x7b\"name\":\"Tacos\",\"region\":\"Mexico\",\"ingredients\":[\"corn\"],\"instructions\":[\"cook\"],\"funFacts\":[\"old\"]\x7d"

/-- The parse of tacosJsonStr. -/
def tacosJson : Json :=
  .obj [ ("name", .str "Tacos"), ("region", .str "Mexico")
       , ("ingredients", .arr [.str "corn"]), ("instructions", .arr [.str "cook"])
       , ("funFacts", .arr [.str "old"]) ]

/-- A reply whose JSON carries region present but equal to the empty string. -/
def emptyRegionText : String :=
  "\x7b\"name\":\"A\",\"region\":\"\",\"ingredients\":[],\"instructions\":[],\"funFacts\":[]\x7d"

/-- The parse of emptyRegionText. -/
def emptyRegionJson : Json :=
  .obj [ ("name", .str "A"), ("region", .str "")
       , ("ingredients", .arr []), ("instructions", .arr []), ("funFacts", .arr []) ]

/-- A reply whose arrays contain non-string elements. -/
def numberArraysText : String :=
  "\x7b\"name\":\"Mystery\",\"region\":\"X\",\"ingredients\":[1,2],\"instructions\":[\x7b\"a\":3\x7d],\"funFacts\":[]\x7d"

/-- The parse of numberArraysText: the three checked properties are arrays,
but the elements are numbers and a nested object, not strings. -/
def numberArraysJson : Json :=
  .obj [ ("name", .str "Mystery"), ("region", .str "X")
       , ("ingredients", .arr [.num 1, .num 2])
       , ("instructions", .arr [.obj [("a", .num 3)]])
       , ("funFacts", .arr []) ]

/-- The DishResult shape a consumer relies on: name present as a string and
the three list properties present as arrays. -/
def responseShapeOk (j : Json) : Bool :=
  isStr (j.lookup "name") &&
  isArr (j.lookup "ingredients") &&
  isArr (j.lookup "instructions") &&
  isArr (j.lookup "funFacts")

/-! ### Helper lemmas on association updates -/

theorem lookupField_setField_eq {α : Type} (fields : List (String × α)) (k : String) (v : α) :
    lookupField (setField fields k v) k = some v := by
  induction fields with
  | nil => simp [setField, lookupField]
  | cons p rest ih =>
    obtain ⟨k', v'⟩ := p
    by_cases hk : k' = k
    · subst hk; simp [setField, lookupField]
    · simp [setField, lookupField, hk, ih]

theorem lookupField_setField_ne {α : Type} (fields : List (String × α)) (k key : String)
    (v : α) (h : k ≠ key) :
    lookupField (setField fields k v) key = lookupField fields key := by
  induction fields with
  | nil => simp [setField, lookupField, h]
  | cons p rest ih =>
    obtain ⟨k', v'⟩ := p
    by_cases hk : k' = k
    · subst hk; simp [setField, lookupField, h]
    · simp [setField, lookupField, hk, ih]

/-! ### Helper lemmas on the response pipeline -/

theorem shapeOk_toJson (d : DishResult) : responseShapeOk d.toJson = true := rfl

theorem shapeOk_fallback (text : String) :
    responseShapeOk (fallbackResponse text).2 = true := by
  unfold fallbackResponse
  split
  · exact shapeOk_toJson _
  · exact shapeOk_toJson _

theorem lookup_withDefaultRegion_ne :
    ∀ (j : Json), isValidDishResult j = true → ∀ (key : String), key ≠ "region" →
      (withDefaultRegion j).lookup key = j.lookup key
  | .obj fields, _, key, hkey => by
    simp only [withDefaultRegion, Json.lookup]
    exact lookupField_setField_ne fields "region" key _ (Ne.symm hkey)
  | .null, hv, _, _ => by simp [isValidDishResult] at hv
  | .bool _, hv, _, _ => by simp [isValidDishResult] at hv
  | .num _, hv, _, _ => by simp [isValidDishResult] at hv
  | .str _, hv, _, _ => by simp [isValidDishResult] at hv
  | .arr _, hv, _, _ => by simp [isValidDishResult] at hv

theorem lookup_withDefaultRegion_eq :
    ∀ (j : Json), isValidDishResult j = true →
      (withDefaultRegion j).lookup "region" = some (.str (regionOrDefault j))
  | .obj fields, _ => by
    simp only [withDefaultRegion, Json.lookup]
    exact lookupField_setField_eq fields "region" _
  | .null, hv => by simp [isValidDishResult] at hv
  | .bool _, hv => by simp [isValidDishResult] at hv
  | .num _, hv => by simp [isValidDishResult] at hv
  | .str _, hv => by simp [isValidDishResult] at hv
  | .arr _, hv => by simp [isValidDishResult] at hv

theorem shapeOk_withDefaultRegion :
    ∀ (j : Json), isValidDishResult j = true →
      responseShapeOk (withDefaultRegion j) = true
  | .obj fields, hv => by
    simp only [isValidDishResult, Json.lookup, Bool.and_eq_true] at hv
    obtain ⟨⟨⟨⟨hname, _⟩, hing⟩, hins⟩, hfun⟩ := hv
    simp only [responseShapeOk, withDefaultRegion, Json.lookup, Bool.and_eq_true]
    rw [lookupField_setField_ne fields "region" "name" _ (by decide),
        lookupField_setField_ne fields "region" "ingredients" _ (by decide),
        lookupField_setField_ne fields "region" "instructions" _ (by decide),
        lookupField_setField_ne fields "region" "funFacts" _ (by decide)]
    exact ⟨⟨⟨hname, hing⟩, hins⟩, hfun⟩
  | .null, hv => by simp [isValidDishResult] at hv
  | .bool _, hv => by simp [isValidDishResult] at hv
  | .num _, hv => by simp [isValidDishResult] at hv
  | .str _, hv => by simp [isValidDishResult] at hv
  | .arr _, hv => by simp [isValidDishResult] at hv

/-! ### The claims -/

/-- C1: every 200 response of the reply-normalization pipeline carries a
DishResult whose name is a string and whose ingredients, instructions and
funFacts are present as arrays, on each of the three paths (strict JSON,
heuristic scrape, placeholder). -/
theorem c1_response_shape (text : String) (h : (processText text).1 = 200) :
    responseShapeOk (processText text).2 = true := by
  unfold processText at h ⊢
  cases hb : braceMatch text with
  | none => simp only [hb]; exact shapeOk_fallback text
  | some s =>
    simp only [hb] at h ⊢
    cases hp : parseJson s with
    | none => simp only [hp] at h; exact absurd h (by decide)
    | some j =>
      simp only [hp] at h ⊢
      cases hv : isValidDishResult j with
      | true => simp only [hv, if_true]; exact shapeOk_withDefaultRegion j hv
      | false => simp only [hv, Bool.false_eq_true, if_false]; exact shapeOk_fallback text

/-- Witness for C1 at the empty reply, which lands on the placeholder path. -/
theorem c1_response_shape_witness :
    (processText "").1 = 200 ∧ responseShapeOk (processText "").2 = true :=
  ⟨rfl, c1_response_shape "" rfl⟩

/-- C2 (counterexample): on the spec's own heuristic-path input the section
collection does not stop at the first non-matching line; the ingredients
section also swallows the numbered lines of the later Instructions section,
so the claimed ingredients value is wrong. -/
theorem c2_counterexample :
    (createStructuredResponse pizzaText).name = "Pizza" ∧
    (createStructuredResponse pizzaText).region = "Italy" ∧
    (createStructuredResponse pizzaText).ingredients = ["Flour", "Cheese", "Mix", "Bake"] ∧
    (["Flour", "Cheese", "Mix", "Bake"] : List String) ≠ ["Flour", "Cheese"] ∧
    (createStructuredResponse pizzaText).instructions = ["Mix", "Bake"] ∧
    processText pizzaText = (200, (createStructuredResponse pizzaText).toJson) :=
  ⟨rfl, rfl, rfl, by decide, rfl, rfl⟩

/-- C2 (amended): each list section collects every bullet-marker or numbered
line from the first occurrence of its label to the end of the text (an
Array.filter, not a run ended by the first non-matching line); on the spec's
input the Handler hence returns name Pizza, region Italy, ingredients
[Flour, Cheese, Mix, Bake] and instructions [Mix, Bake], with HTTP 200. -/
theorem c2_section_scrape :
    processText pizzaText =
      (200, Json.obj
        [ ("name", .str "Pizza")
        , ("region", .str "Italy")
        , ("ingredients", .arr [.str "Flour", .str "Cheese", .str "Mix", .str "Bake"])
        , ("instructions", .arr [.str "Mix", .str "Bake"])
        , ("funFacts", .arr []) ]) := rfl

/-- C3 (counterexample): identifyDish installs no cancellation, so in the
realizable schedule in which a second submission begins while the first is in
flight and the first response settles last, the first request's resolution
overwrites the result that the second request had stored. -/
theorem c3_counterexample :
    burstsOf raceTrace 1 = [.beginRequest 1, .resolve 1 (.success dishFirst)] ∧
    burstsOf raceTrace 2 = [.beginRequest 2, .resolve 2 (.success dishSecond)] ∧
    runEvents initController raceTrace =
      { loading := false, result := some dishFirst, error := none } ∧
    dishFirst ≠ dishSecond :=
  ⟨rfl, rfl, rfl, by decide⟩

/-- C3 (amended): the controller cancels nothing; when a second submission is
issued while the first is in flight, both run to completion, each resolution
overwrites the result as it settles, and the last-settled response wins even
when it belongs to the earlier submission.  A successful stale resolution
still never sets the error message. -/
theorem c3_no_cancellation (s : ControllerState) (d1 d2 : DishResult) :
    runEvents s
      [ .beginRequest 1, .beginRequest 2
      , .resolve 2 (.success d2), .resolve 1 (.success d1) ] =
      { loading := false, result := some d1, error := none } := rfl

/-- C4 (counterexample): a parsed reply whose region property is present but
equal to the empty string passes the shape check, yet the Handler does not
preserve it: the JS falsy test replaces it with the default, so region is not
preserved whenever present. -/
theorem c4_counterexample :
    braceMatch emptyRegionText = some emptyRegionText ∧
    parseJson emptyRegionText = some emptyRegionJson ∧
    isValidDishResult emptyRegionJson = true ∧
    emptyRegionJson.lookup "region" = some (.str "") ∧
    (processText emptyRegionText).1 = 200 ∧
    ((processText emptyRegionText).2).lookup "region" =
      some (.str "Origin not specified") ∧
    ("Origin not specified" : String) ≠ "" :=
  ⟨rfl, rfl, rfl, rfl, rfl, rfl, by decide⟩

/-- C4 (amended): when the greedy brace-delimited substring of the reply
parses and passes the shape check, the Handler responds 200 with exactly that
object, every property other than region kept verbatim, and region set to
the parsed region when it is a nonempty string and to the default otherwise
(absent or empty string). -/
theorem c4_strict_json (text jsonStr : String) (j : Json)
    (hb : braceMatch text = some jsonStr)
    (hp : parseJson jsonStr = some j)
    (hv : isValidDishResult j = true) :
    (processText text).1 = 200 ∧
    (∀ key, key ≠ "region" → ((processText text).2).lookup key = j.lookup key) ∧
    ((processText text).2).lookup "region" = some (.str (regionOrDefault j)) := by
  have hpt : processText text = (200, withDefaultRegion j) := by
    unfold processText
    simp only [hb, hp, hv, if_true]
  refine ⟨by rw [hpt], ?_, ?_⟩
  · intro key hkey
    rw [hpt]
    exact lookup_withDefaultRegion_ne j hv key hkey
  · rw [hpt]
    exact lookup_withDefaultRegion_eq j hv

/-- Witness for C4 at the spec's Tacos example embedded in prose: the
structure comes back with region Mexico preserved. -/
theorem c4_strict_json_witness :
    (processText tacosText).1 = 200 ∧
    ((processText tacosText).2).lookup "region" = some (.str "Mexico") ∧
    ((processText tacosText).2).lookup "name" = some (.str "Tacos") := by
  have h := c4_strict_json tacosText tacosJsonStr tacosJson rfl rfl rfl
  exact ⟨h.1, h.2.2.trans rfl, (h.2.1 "name" (by decide)).trans rfl⟩

/-- C5 (code bug): in the ordinary execution startCamera runs while the
video element is not yet mounted, so the acquired stream is never attached;
the track stops of capturePhoto and of the cancel button then act on a null
srcObject, capture cannot even produce a blob, and the page registers no
unmount cleanup - the device stream stays live across every exit path of the
page camera, against the claimed (and clearly intended) release invariant.
The standalone CameraCapture component does implement the intended release:
its effect cleanup stops the recorded stream on unmount. -/
theorem c5_stream_leak (n : Nat) (t : CCSession) :
    (startCameraOk initSession n).attached = false ∧
    (cancelCamera (startCameraOk initSession n)).streamTracks = n ∧
    (capturePhoto (startCameraOk initSession n)).streamTracks = n ∧
    (unmountHome (startCameraOk initSession n)).streamTracks = n ∧
    (ccCleanup (ccAcquire t n)).deviceTracks = 0 :=
  ⟨rfl, rfl, rfl, rfl, rfl⟩

/-- C6: when the strict-JSON attempt falls through to the scrape (no brace
substring, or a parsed value failing the shape check) and the scrape yields
nothing usable (default name, empty ingredients, empty instructions), the
Handler responds 200 with the fixed unable-to-identify placeholder, not an
error. -/
theorem c6_placeholder (text : String)
    (hstrict : strictPathRejects text = true)
    (hname : (createStructuredResponse text).name = "Unknown Dish")
    (hing : (createStructuredResponse text).ingredients = [])
    (hins : (createStructuredResponse text).instructions = []) :
    processText text = (200, placeholderResult.toJson) := by
  have hcond : ¬ ((createStructuredResponse text).name ≠ "Unknown Dish"
      ∨ 0 < (createStructuredResponse text).ingredients.length
      ∨ 0 < (createStructuredResponse text).instructions.length) := by
    rw [hname, hing, hins]; simp
  have hfb : fallbackResponse text = (200, placeholderResult.toJson) := by
    unfold fallbackResponse
    rw [if_neg hcond]
  unfold strictPathRejects at hstrict
  unfold processText
  cases hb : braceMatch text with
  | none => simp only [hb]; exact hfb
  | some s =>
    simp only [hb] at hstrict ⊢
    cases hp : parseJson s with
    | none => rw [hp] at hstrict; exact absurd hstrict (by decide)
    | some j =>
      cases hv : isValidDishResult j with
      | true => rw [hp] at hstrict; simp [hv] at hstrict
      | false => simp only [hp, hv, Bool.false_eq_true, if_false]; exact hfb

/-- Witness for C6 at a reply with no braces, no labels and no bullets. -/
theorem c6_placeholder_witness :
    processText "hello" = (200, placeholderResult.toJson) :=
  c6_placeholder "hello" rfl rfl rfl rfl

/-- C7: a request whose image field is missing or is a plain string entry is
answered 400 with the fixed error body, and control never reaches the model
call. -/
theorem c7_bad_request (form : List (String × FormValue)) (apiKey : Option String)
    (reply : String)
    (h : lookupField form "image" = none ∨ ∃ s, lookupField form "image" = some (.str s)) :
    POST form apiKey reply =
      ⟨400, Json.obj [("error", Json.str "No valid image provided")], false⟩ := by
  unfold POST
  rcases h with h | ⟨s, h⟩ <;> rw [h]

/-- Witness for C7 at an empty form. -/
theorem c7_bad_request_witness :
    POST [] none "" = ⟨400, Json.obj [("error", Json.str "No valid image provided")], false⟩ :=
  c7_bad_request [] none "" (Or.inl rfl)

/-- C8: with a binary image present and the API key missing from the
environment, the Handler answers 503 with the fixed error body, and control
never reaches the model call. -/
theorem c8_missing_key (form : List (String × FormValue)) (bytes : List Nat) (reply : String)
    (h : lookupField form "image" = some (.file bytes)) :
    POST form none reply =
      ⟨503, Json.obj [("error", Json.str "Service configuration error")], false⟩ := by
  unfold POST
  rw [h]

/-- Witness for C8 at a one-field form. -/
theorem c8_missing_key_witness :
    POST [("image", .file [])] none "" =
      ⟨503, Json.obj [("error", Json.str "Service configuration error")], false⟩ :=
  c8_missing_key [("image", .file [])] [] "" rfl

/-- C9: a failed identification (the code has no cancellation, so every
failure is of the non-cancellation kind) sets exactly the fixed user-visible
message and leaves the previously stored result untouched, from any prior
controller state. -/
theorem c9_error_frame (s : ControllerState) (i : Nat) :
    runEvents s [.beginRequest i, .resolve i .failure] =
      { loading := false
      , result := s.result
      , error := some "Failed to identify dish. Please try again." } := rfl

/-- C10: the shape check looks only at Array.isArray, so a reply whose arrays
hold numbers and a nested object is accepted and those arrays are returned
verbatim in the 200 body - the public arrays are not guaranteed to contain
only strings. -/
theorem c10_arrays_verbatim :
    braceMatch numberArraysText = some numberArraysText ∧
    parseJson numberArraysText = some numberArraysJson ∧
    isValidDishResult numberArraysJson = true ∧
    (processText numberArraysText).1 = 200 ∧
    ((processText numberArraysText).2).lookup "ingredients" =
      some (.arr [.num 1, .num 2]) ∧
    ((processText numberArraysText).2).lookup "instructions" =
      some (.arr [.obj [("a", .num 3)]]) :=
  ⟨rfl, rfl, rfl, rfl, rfl, rfl⟩

end RecipeFinder
